import Mathlib

/-
Shallow embedding of the session/settings aggregation and persistence core of
`backend/server.py` (Health Reminder API).

Modelling conventions:
- Calendar dates are modelled as `Nat` (day numbers).  The code stores ISO-8601
  date strings (`YYYY-MM-DD`) and compares them with MongoDB `$gte`/`$lte`
  string comparison; lexicographic order on ISO date strings agrees with
  chronological order, so `≤` on day numbers is a faithful embedding, and
  `today - timedelta(days=7)` becomes `today - 7`.
- Timestamps are modelled as `Nat` instants.  The "current instant"
  (`datetime.utcnow()`), "today" (`date.today()`) and freshly generated ids
  (`uuid.uuid4()`) are nondeterministic inputs of the Python code, so they are
  explicit parameters of the corresponding Lean functions.
- The MongoDB database is a `Store` holding the two collections as lists in
  insertion order.  `insert_one` appends; `find` returns the sublist of
  matching documents in store order, truncated by the `to_list(n)` cap;
  `find_one` returns the first matching document; `update_one` rewrites the
  first matching document.  `update_one`'s result counts are modelled
  faithfully: `matched_count` is 1 iff some document matches the filter, and
  `modified_count` is 1 iff the matched document actually changed under the
  `$set` (MongoDB reports 0 modified when the new field values equal the old
  ones, even though a document matched).
-/

namespace HealthReminder

/-- Embeds the pydantic model `HealthSession` of `server.py`. -/
structure HealthSession where
  id : Nat
  user_id : String
  session_date : Nat
  sitting_duration : Int
  activity_duration : Int
  completed : Bool
  timestamp : Nat
deriving DecidableEq, Repr

/-- Embeds the pydantic model `HealthSessionCreate`: the request body of
`POST /api/sessions`.  The `completed` field defaults to `False` in the code;
callers that omit it correspond to `completed := false` here. -/
structure HealthSessionCreate where
  sitting_duration : Int
  activity_duration : Int
  completed : Bool
deriving DecidableEq, Repr

/-- Embeds the pydantic model `UserSettings` of `server.py` (defaults are in
`defaultUserSettings`). -/
structure UserSettings where
  id : Nat
  user_id : String
  sitting_reminder_minutes : Int
  activity_break_minutes : Int
  notifications_enabled : Bool
  sound_alerts_enabled : Bool
  daily_goal_sessions : Int
  timestamp : Nat
deriving DecidableEq, Repr

/-- Embeds the pydantic model `UserSettingsUpdate`: every field optional,
`none` meaning "field not supplied" (`v is None` is excluded from the
`$set`). -/
structure UserSettingsUpdate where
  sitting_reminder_minutes : Option Int
  activity_break_minutes : Option Int
  notifications_enabled : Option Bool
  sound_alerts_enabled : Option Bool
  daily_goal_sessions : Option Int
deriving DecidableEq, Repr

/-- The response dictionary of `GET /api/sessions/progress`
(`get_daily_progress` in `server.py`). -/
structure DailyProgressResult where
  date : Nat
  total_sessions : Nat
  completed_sessions : Nat
  total_sitting_time : Int
  total_activity_time : Int
  sessions : List HealthSession
deriving DecidableEq, Repr

/-- One per-date bucket of the `daily_stats` dictionary built by
`get_weekly_progress` in `server.py`. -/
structure DailyStat where
  date : Nat
  total_sessions : Nat
  completed_sessions : Nat
  total_sitting_time : Int
  total_activity_time : Int
deriving DecidableEq, Repr

/-- The response dictionary of `GET /api/sessions/weekly`. -/
structure WeeklyProgressResult where
  week_start : Nat
  week_end : Nat
  daily_progress : List DailyStat
deriving DecidableEq, Repr

/-- The MongoDB database `db`: collections `health_sessions` and
`user_settings`, each a list of documents in insertion order. -/
structure Store where
  health_sessions : List HealthSession
  user_settings : List UserSettings
deriving DecidableEq, Repr

/-- The empty database. -/
def emptyStore : Store := ⟨[], []⟩

/-- Rewrites the first element satisfying `p` by `f`, leaving the rest alone:
MongoDB `update_one(filter, {"$set": ...})` on a list-modelled collection. -/
def replaceFirstBy (p : α → Bool) (f : α → α) : List α → List α
  | [] => []
  | x :: xs => if p x then f x :: xs else x :: replaceFirstBy p f xs

/-- Embeds `create_session` (`POST /api/sessions`): builds a `HealthSession`
from the request body with `session_date = date.today()`, a fresh id and the
current instant, inserts it into `health_sessions`, and returns it.  The
`completed` flag of the request body is passed through verbatim
(`session.dict()` includes it). -/
def create_session (inp : HealthSessionCreate) (newId : Nat) (today : Nat)
    (now : Nat) (store : Store) : HealthSession × Store :=
  let session_obj : HealthSession :=
    { id := newId
      user_id := "default_user"
      session_date := today
      sitting_duration := inp.sitting_duration
      activity_duration := inp.activity_duration
      completed := inp.completed
      timestamp := now }
  (session_obj, { store with health_sessions := store.health_sessions ++ [session_obj] })

/-- The sessions matched by `find({"session_date": today.isoformat()})`,
before the `to_list(100)` cap (used by both today-listing and daily
progress). -/
def todaySessions (today : Nat) (store : Store) : List HealthSession :=
  store.health_sessions.filter (fun s => s.session_date == today)

/-- Embeds `get_today_sessions` (`GET /api/sessions/today`):
`find({"session_date": today}).to_list(100)`. -/
def get_today_sessions (today : Nat) (store : Store) : List HealthSession :=
  (todaySessions today store).take 100

/-- Embeds `get_daily_progress` (`GET /api/sessions/progress`): fetches
today's sessions (100-record cap) and aggregates count, completed count and
duration sums over the fetched list. -/
def get_daily_progress (today : Nat) (store : Store) : DailyProgressResult :=
  let sessions := (todaySessions today store).take 100
  { date := today
    total_sessions := sessions.length
    completed_sessions := (sessions.filter (fun s => s.completed)).length
    total_sitting_time := (sessions.map (fun s => s.sitting_duration)).sum
    total_activity_time := (sessions.map (fun s => s.activity_duration)).sum
    sessions := sessions }

/-- A fresh zeroed bucket for date `d`, as built when `session_date` is not yet
a key of `daily_stats`. -/
def initStat (d : Nat) : DailyStat :=
  { date := d, total_sessions := 0, completed_sessions := 0
    total_sitting_time := 0, total_activity_time := 0 }

/-- Folding one session into its bucket: the four `+=` statements of
`get_weekly_progress`. -/
def bumpStat (s : HealthSession) (st : DailyStat) : DailyStat :=
  { st with
    total_sessions := st.total_sessions + 1
    completed_sessions := st.completed_sessions + (if s.completed then 1 else 0)
    total_sitting_time := st.total_sitting_time + s.sitting_duration
    total_activity_time := st.total_activity_time + s.activity_duration }

/-- One iteration of the grouping loop of `get_weekly_progress`: the
`daily_stats` Python dict is modelled as a list of buckets in key-insertion
order (dicts preserve insertion order); a missing key appends a zeroed bucket,
then the bucket for `s.session_date` is bumped.  Keys are pairwise distinct by
construction, so the `map` touches exactly the one bucket the dict lookup
would. -/
def addToStats (stats : List DailyStat) (s : HealthSession) : List DailyStat :=
  if stats.any (fun st => st.date == s.session_date) then
    stats.map (fun st => if st.date == s.session_date then bumpStat s st else st)
  else
    stats ++ [bumpStat s (initStat s.session_date)]

/-- The sessions matched by the weekly `find` filter
`{"session_date": {"$gte": week_ago, "$lte": today}}`, before the
`to_list(1000)` cap. -/
def windowSessions (today : Nat) (store : Store) : List HealthSession :=
  store.health_sessions.filter
    (fun s => decide (today - 7 ≤ s.session_date) && decide (s.session_date ≤ today))

/-- Embeds `get_weekly_progress` (`GET /api/sessions/weekly`): fetches the
sessions whose `session_date` lies in `[today - 7, today]` (1000-record cap),
groups them by date in first-seen order, and returns the window bounds with
the bucket list. -/
def get_weekly_progress (today : Nat) (store : Store) : WeeklyProgressResult :=
  let week_ago := today - 7
  let sessions := (windowSessions today store).take 1000
  let daily_stats := sessions.foldl addToStats []
  { week_start := week_ago, week_end := today, daily_progress := daily_stats }

/-- Embeds `complete_session` (`POST /api/sessions/{id}/complete`):
`update_one({"id": session_id}, {"$set": {"completed": True, "timestamp": now}})`,
then 404 when `modified_count == 0`, else `find_one` the updated record.
`modified_count` is 0 either when no document has this id, or when the matched
document already carried exactly the written values (MongoDB counts only
actually-changed documents).  The first component is the HTTP result
(`none` = 404 Session not found), the second the post-state of the store. -/
def complete_session (sid : Nat) (now : Nat) (store : Store) :
    Option HealthSession × Store :=
  match store.health_sessions.find? (fun s => s.id == sid) with
  | none => (none, store)
  | some s =>
    let store' := { store with
      health_sessions := replaceFirstBy (fun t => t.id == sid)
        (fun t => { t with completed := true, timestamp := now }) store.health_sessions }
    if s.completed && s.timestamp == now then (none, store')
    else (store'.health_sessions.find? (fun t => t.id == sid), store')

/-- The `UserSettings()` record built from all pydantic defaults, with the
generated id and creation instant made explicit. -/
def defaultUserSettings (newId : Nat) (now : Nat) : UserSettings :=
  { id := newId
    user_id := "default_user"
    sitting_reminder_minutes := 50
    activity_break_minutes := 10
    notifications_enabled := true
    sound_alerts_enabled := true
    daily_goal_sessions := 8
    timestamp := now }

/-- Embeds `get_user_settings` (`GET /api/settings`): `find_one` the
`default_user` record; if absent, build the all-defaults record, insert it and
return it; otherwise return the found record unchanged. -/
def get_user_settings (newId : Nat) (now : Nat) (store : Store) :
    UserSettings × Store :=
  match store.user_settings.find? (fun s => s.user_id == "default_user") with
  | some s => (s, store)
  | none =>
    let d := defaultUserSettings newId now
    (d, { store with user_settings := store.user_settings ++ [d] })

/-- The `$set` document of `update_user_settings` applied to an existing
record: every supplied (non-`None`) field overwrites, every omitted field
keeps its prior value, and `timestamp` is always rewritten to the current
instant. -/
def applyUpdate (u : UserSettingsUpdate) (now : Nat) (s : UserSettings) :
    UserSettings :=
  { s with
    sitting_reminder_minutes := u.sitting_reminder_minutes.getD s.sitting_reminder_minutes
    activity_break_minutes := u.activity_break_minutes.getD s.activity_break_minutes
    notifications_enabled := u.notifications_enabled.getD s.notifications_enabled
    sound_alerts_enabled := u.sound_alerts_enabled.getD s.sound_alerts_enabled
    daily_goal_sessions := u.daily_goal_sessions.getD s.daily_goal_sessions
    timestamp := now }

/-- The `UserSettings(**update_data)` record built when the update matched no
existing document: supplied fields are taken from the patch, omitted fields
from the pydantic defaults, `timestamp` from the patch's current instant, and
a fresh id is generated. -/
def settingsFromUpdate (u : UserSettingsUpdate) (newId : Nat) (now : Nat) :
    UserSettings :=
  { id := newId
    user_id := "default_user"
    sitting_reminder_minutes := u.sitting_reminder_minutes.getD 50
    activity_break_minutes := u.activity_break_minutes.getD 10
    notifications_enabled := u.notifications_enabled.getD true
    sound_alerts_enabled := u.sound_alerts_enabled.getD true
    daily_goal_sessions := u.daily_goal_sessions.getD 8
    timestamp := now }

/-- Embeds `update_user_settings` (`PUT /api/settings`): `update_one` on the
`default_user` record with the non-`None` fields plus a fresh `timestamp`; if
`matched_count == 0`, insert `UserSettings(**update_data)` and return it;
otherwise `find_one` the updated record and return it.  The fallback value of
the refetch is unreachable (proved below): after updating the first matching
document, `find_one` finds exactly it. -/
def update_user_settings (u : UserSettingsUpdate) (newId : Nat) (now : Nat)
    (store : Store) : UserSettings × Store :=
  match store.user_settings.find? (fun s => s.user_id == "default_user") with
  | none =>
    let fresh := settingsFromUpdate u newId now
    (fresh, { store with user_settings := store.user_settings ++ [fresh] })
  | some s =>
    let store' := { store with
      user_settings := replaceFirstBy (fun t => t.user_id == "default_user")
        (applyUpdate u now) store.user_settings }
    ((store'.user_settings.find? (fun t => t.user_id == "default_user")).getD
      (applyUpdate u now s), store')

/-- The empty patch `UserSettingsUpdate()`: every field `None`. -/
def emptyPatch : UserSettingsUpdate := ⟨none, none, none, none, none⟩

/-- Number of stored settings records for the single tenant
`"default_user"`. -/
def settingsCount (store : Store) : Nat :=
  store.user_settings.countP (fun s => s.user_id == "default_user")

/-- Folding a whole list of sessions into one bucket (the cumulative effect of
the grouping loop on a single dict entry). -/
def bumpAll (l : List HealthSession) (st : DailyStat) : DailyStat :=
  l.foldl (fun a s => bumpStat s a) st

/-- A minimal session dated day 5, used in concrete evaluations. -/
def sdemo : HealthSession :=
  { id := 1, user_id := "default_user", session_date := 5
    sitting_duration := 0, activity_duration := 0, completed := false, timestamp := 0 }

/-- A store holding 101 sessions dated day 5: one more than the daily
retrieval cap. -/
def ce101Store : Store := ⟨List.replicate 101 sdemo, []⟩

/-- A store holding 1001 sessions dated day 5: one more than the weekly
retrieval cap. -/
def ce1001Store : Store := ⟨List.replicate 1001 sdemo, []⟩

/-- The store produced by creating (on day 3) a session with negative
durations and an initial `completed = True` flag: the pydantic models accept
any `int`/`bool`, so this request passes the boundary validation. -/
def negStore : Store := (create_session ⟨-5, -3, true⟩ 7 3 2 emptyStore).2

/-- A store holding one uncompleted session dated day 5. -/
def sessionStoreEx : Store :=
  ⟨[{ id := 1, user_id := "default_user", session_date := 5, sitting_duration := 30
      activity_duration := 5, completed := false, timestamp := 0 }], []⟩

/-- A store holding one settings record with non-default values. -/
def settingsStoreEx : Store :=
  ⟨[], [{ id := 9, user_id := "default_user", sitting_reminder_minutes := 45
          activity_break_minutes := 12, notifications_enabled := false
          sound_alerts_enabled := true, daily_goal_sessions := 6, timestamp := 0 }]⟩

/-- A store with two sessions inside the weekly window of day 7 (days 5 and 6)
and one outside it (day 20). -/
def wStore : Store :=
  ⟨[{ id := 1, user_id := "default_user", session_date := 5, sitting_duration := 30
      activity_duration := 5, completed := false, timestamp := 0 },
    { id := 2, user_id := "default_user", session_date := 6, sitting_duration := 20
      activity_duration := 10, completed := true, timestamp := 0 },
    { id := 3, user_id := "default_user", session_date := 20, sitting_duration := 1
      activity_duration := 1, completed := false, timestamp := 0 }], []⟩

/-
Generic lemmas about the list-modelled MongoDB operations.
-/

/-- An `update_one` followed by `find_one` on the same filter finds exactly the
rewritten document, provided the rewrite preserves the filtered field. -/
theorem replaceFirstBy_find? {α : Type} {p : α → Bool} {f : α → α}
    (hf : ∀ a, p (f a) = p a) {l : List α} {a : α} (h : l.find? p = some a) :
    (replaceFirstBy p f l).find? p = some (f a) := by
  induction l with
  | nil => simp at h
  | cons x xs ih =>
    by_cases hx : p x = true
    · rw [List.find?_cons_of_pos _ hx] at h
      injection h with h
      subst h
      simp only [replaceFirstBy, if_pos hx]
      exact List.find?_cons_of_pos _ (by rw [hf]; exact hx)
    · rw [List.find?_cons_of_neg _ hx] at h
      simp only [replaceFirstBy, if_neg hx]
      rw [List.find?_cons_of_neg _ hx]
      exact ih h

/-- Every document of the collection after an `update_one` is either an
untouched old document or the rewrite of an old document. -/
theorem mem_replaceFirstBy {α : Type} {p : α → Bool} {f : α → α} {l : List α}
    {x : α} (hx : x ∈ replaceFirstBy p f l) : x ∈ l ∨ ∃ y ∈ l, x = f y := by
  induction l with
  | nil => simp [replaceFirstBy] at hx
  | cons z zs ih =>
    by_cases hz : p z = true
    · simp only [replaceFirstBy, if_pos hz] at hx
      rcases List.mem_cons.mp hx with h | h
      · exact Or.inr ⟨z, List.mem_cons_self z zs, h⟩
      · exact Or.inl (List.mem_cons_of_mem _ h)
    · simp only [replaceFirstBy, if_neg hz] at hx
      rcases List.mem_cons.mp hx with h | h
      · exact Or.inl (by simp [h])
      · rcases ih h with h' | ⟨y, hy, hxy⟩
        · exact Or.inl (List.mem_cons_of_mem _ h')
        · exact Or.inr ⟨y, List.mem_cons_of_mem _ hy, hxy⟩

/-- An `update_one` whose rewrite preserves a field predicate preserves the
number of documents satisfying it. -/
theorem countP_replaceFirstBy {α : Type} {p q : α → Bool} {f : α → α}
    (hq : ∀ a, q (f a) = q a) (l : List α) :
    (replaceFirstBy p f l).countP q = l.countP q := by
  induction l with
  | nil => rfl
  | cons x xs ih =>
    by_cases hx : p x = true
    · simp [replaceFirstBy, if_pos hx, List.countP_cons, hq]
    · simp [replaceFirstBy, if_neg hx, List.countP_cons, ih]

/-
Lemmas about the weekly grouping fold.
-/

/-- Fields of a bucket after folding a list of sessions into it. -/
theorem bumpAll_fields (l : List HealthSession) (st : DailyStat) :
    (bumpAll l st).date = st.date ∧
    (bumpAll l st).total_sessions = st.total_sessions + l.length ∧
    (bumpAll l st).completed_sessions
      = st.completed_sessions + (l.filter (fun s => s.completed)).length ∧
    (bumpAll l st).total_sitting_time
      = st.total_sitting_time + (l.map (fun s => s.sitting_duration)).sum ∧
    (bumpAll l st).total_activity_time
      = st.total_activity_time + (l.map (fun s => s.activity_duration)).sum := by
  induction l generalizing st with
  | nil => simp [bumpAll]
  | cons s l ih =>
    have h := ih (bumpStat s st)
    refine ⟨?_, ?_, ?_, ?_, ?_⟩
    · rw [show bumpAll (s :: l) st = bumpAll l (bumpStat s st) from rfl, h.1]
      rfl
    · rw [show bumpAll (s :: l) st = bumpAll l (bumpStat s st) from rfl, h.2.1]
      simp [bumpStat]
      omega
    · rw [show bumpAll (s :: l) st = bumpAll l (bumpStat s st) from rfl, h.2.2.1]
      by_cases hc : s.completed = true <;>
        simp [bumpStat, List.filter_cons, hc] <;> omega
    · rw [show bumpAll (s :: l) st = bumpAll l (bumpStat s st) from rfl, h.2.2.2.1]
      simp [bumpStat, add_assoc]
    · rw [show bumpAll (s :: l) st = bumpAll l (bumpStat s st) from rfl, h.2.2.2.2]
      simp [bumpStat, add_assoc]

/-- Bucket lookup on a date key commutes with a date-preserving map over buckets. -/
theorem find?_map_dates (g : DailyStat → DailyStat) (hg : ∀ b, (g b).date = b.date)
    (l : List DailyStat) (d : Nat) :
    (l.map g).find? (fun b => b.date == d)
      = Option.map g (l.find? (fun b => b.date == d)) := by
  induction l with
  | nil => rfl
  | cons x xs ih =>
    by_cases hx : (x.date == d) = true
    · have hgx : ((g x).date == d) = true := by rw [hg]; exact hx
      rw [List.map_cons, List.find?_cons_of_pos (p := fun b : DailyStat => b.date == d) _ hgx,
        List.find?_cons_of_pos (p := fun b : DailyStat => b.date == d) _ hx]
      rfl
    · have hgx : ¬ ((g x).date == d) = true := by rw [hg]; exact hx
      rw [List.map_cons, List.find?_cons_of_neg (p := fun b : DailyStat => b.date == d) _ hgx,
        List.find?_cons_of_neg (p := fun b : DailyStat => b.date == d) _ hx]
      exact ih

/-- One grouping step, observed through the bucket lookup at any date `d`:
folding session `s` bumps exactly the bucket of `s.session_date` (creating it
zeroed when absent) and leaves every other lookup unchanged. -/
theorem find?_addToStats (stats : List DailyStat) (s : HealthSession) (d : Nat) :
    (addToStats stats s).find? (fun b => b.date == d)
      = if d = s.session_date then
          some (bumpStat s ((stats.find? (fun b => b.date == d)).getD (initStat d)))
        else stats.find? (fun b => b.date == d) := by
  unfold addToStats
  by_cases ha : stats.any (fun st => st.date == s.session_date) = true
  · rw [if_pos ha, find?_map_dates _ (fun b => by split <;> rfl)]
    by_cases hd : d = s.session_date
    · subst hd
      rcases List.any_eq_true.mp ha with ⟨x, hx, hpx⟩
      have hsome : ∃ y, stats.find? (fun b => b.date == s.session_date) = some y := by
        cases hfs : stats.find? (fun b => b.date == s.session_date) with
        | none => exact absurd hpx (List.find?_eq_none.mp hfs x hx)
        | some y => exact ⟨y, rfl⟩
      rcases hsome with ⟨y, hy⟩
      have hpy : (y.date == s.session_date) = true := by
        simpa using List.find?_some hy
      rw [hy, if_pos rfl]
      simp [hpy]
      intro hh
      exact absurd (by simpa using hpy) hh
    · rw [if_neg hd]
      cases hfs : stats.find? (fun b => b.date == d) with
      | none => rfl
      | some y =>
        have hyd : y.date = d := by simpa using List.find?_some hfs
        have hny : ¬ (y.date == s.session_date) = true := by
          simp only [beq_iff_eq, hyd]
          exact fun hh => hd hh
        simp only [Option.map_some']
        rw [if_neg hny]
  · rw [if_neg ha]
    have hall : ∀ st ∈ stats, ¬ (st.date == s.session_date) = true := by
      intro st hst hb
      exact ha (List.any_eq_true.mpr ⟨st, hst, hb⟩)
    rw [List.find?_append]
    by_cases hd : d = s.session_date
    · subst hd
      have hnone : stats.find? (fun b => b.date == s.session_date) = none :=
        List.find?_eq_none.mpr hall
      rw [hnone, if_pos rfl]
      simp only [Option.none_or, Option.getD_none]
      rw [List.find?_cons_of_pos (p := fun b : DailyStat => b.date == s.session_date) _
        (by simp [bumpStat, initStat])]
    · rw [if_neg hd]
      have hns : ¬ ((bumpStat s (initStat s.session_date)).date == d) = true := by
        show ¬ (s.session_date == d) = true
        simp only [beq_iff_eq]
        exact fun hh => hd hh.symm
      rw [List.find?_cons_of_neg (p := fun b : DailyStat => b.date == d) _ hns]
      simp

/-- Running the grouping loop over `l` starting from buckets that already hold
date `d`: the bucket of `d` ends up bumped by exactly the sessions of `l`
dated `d`. -/
theorem find?_foldl_addToStats_some (l : List HealthSession) (d : Nat) :
    ∀ (stats : List DailyStat) (st : DailyStat),
      stats.find? (fun b => b.date == d) = some st →
      (l.foldl addToStats stats).find? (fun b => b.date == d)
        = some (bumpAll (l.filter (fun s => s.session_date == d)) st) := by
  induction l with
  | nil =>
    intro stats st h
    simpa [bumpAll] using h
  | cons s l ih =>
    intro stats st h
    rw [List.foldl_cons]
    by_cases hd : d = s.session_date
    · have hq : (s.session_date == d) = true := by simp [hd]
      have h2 : (addToStats stats s).find? (fun b => b.date == d)
          = some (bumpStat s st) := by
        rw [find?_addToStats, if_pos hd, h]
        rfl
      rw [ih (addToStats stats s) (bumpStat s st) h2, List.filter_cons, if_pos hq]
      rfl
    · have hq : ¬ (s.session_date == d) = true := by
        simp only [beq_iff_eq]
        exact fun hh => hd hh.symm
      have h2 : (addToStats stats s).find? (fun b => b.date == d) = some st := by
        rw [find?_addToStats, if_neg hd, h]
      rw [ih (addToStats stats s) st h2, List.filter_cons, if_neg hq]

/-- Running the grouping loop over `l` starting from buckets without date `d`:
afterwards the bucket of `d` exists iff some session of `l` is dated `d`, and
then holds exactly the aggregation of those sessions over a zeroed bucket. -/
theorem find?_foldl_addToStats_none (l : List HealthSession) (d : Nat) :
    ∀ (stats : List DailyStat),
      stats.find? (fun b => b.date == d) = none →
      (l.foldl addToStats stats).find? (fun b => b.date == d)
        = if l.filter (fun s => s.session_date == d) = [] then none
          else some (bumpAll (l.filter (fun s => s.session_date == d)) (initStat d)) := by
  induction l with
  | nil =>
    intro stats h
    simpa using h
  | cons s l ih =>
    intro stats h
    rw [List.foldl_cons]
    by_cases hd : d = s.session_date
    · have hq : (s.session_date == d) = true := by simp [hd]
      have h2 : (addToStats stats s).find? (fun b => b.date == d)
          = some (bumpStat s (initStat d)) := by
        rw [find?_addToStats, if_pos hd, h]
        rfl
      rw [find?_foldl_addToStats_some l d _ _ h2, List.filter_cons, if_pos hq,
        if_neg (List.cons_ne_nil _ _)]
      rfl
    · have hq : ¬ (s.session_date == d) = true := by
        simp only [beq_iff_eq]
        exact fun hh => hd hh.symm
      have h2 : (addToStats stats s).find? (fun b => b.date == d) = none := by
        rw [find?_addToStats, if_neg hd, h]
      rw [ih _ h2, List.filter_cons, if_neg hq]

/-- One grouping step keeps bucket dates pairwise distinct. -/
theorem addToStats_pairwise {stats : List DailyStat} (s : HealthSession)
    (h : stats.Pairwise (fun a b => a.date ≠ b.date)) :
    (addToStats stats s).Pairwise (fun a b => a.date ≠ b.date) := by
  unfold addToStats
  by_cases ha : stats.any (fun st => st.date == s.session_date) = true
  · rw [if_pos ha, List.pairwise_map]
    refine h.imp ?_
    intro a b hab
    have hga : ∀ c : DailyStat,
        (if c.date == s.session_date then bumpStat s c else c).date = c.date := by
      intro c
      split <;> rfl
    rw [hga a, hga b]
    exact hab
  · rw [if_neg ha, List.pairwise_append]
    have hall : ∀ st ∈ stats, ¬ (st.date == s.session_date) = true := by
      intro st hst hb
      exact ha (List.any_eq_true.mpr ⟨st, hst, hb⟩)
    refine ⟨h, List.pairwise_singleton _ _, ?_⟩
    intro a hamem b hbmem
    rw [List.mem_singleton] at hbmem
    subst hbmem
    show a.date ≠ s.session_date
    intro heq
    exact hall a hamem (by simp [heq])

/-- The whole grouping fold keeps bucket dates pairwise distinct. -/
theorem foldl_addToStats_pairwise (l : List HealthSession) :
    ∀ {stats : List DailyStat}, stats.Pairwise (fun a b => a.date ≠ b.date) →
      (l.foldl addToStats stats).Pairwise (fun a b => a.date ≠ b.date) := by
  induction l with
  | nil => exact fun h => h
  | cons s l ih => exact fun h => ih (addToStats_pairwise s h)

/-- Over pairwise-distinct dates, the number of buckets carrying date `d` is 0
or 1 according to whether the lookup fails or succeeds. -/
theorem countP_of_pairwise_dates (d : Nat) :
    ∀ (l : List DailyStat), l.Pairwise (fun a b => a.date ≠ b.date) →
      l.countP (fun b => b.date == d)
        = if l.find? (fun b => b.date == d) = none then 0 else 1
  | [], _ => by simp
  | x :: xs, h => by
    rw [List.pairwise_cons] at h
    by_cases hx : (x.date == d) = true
    · have h0 : xs.countP (fun b => b.date == d) = 0 :=
        List.countP_eq_zero.mpr (fun b hb => by
          simp only [beq_iff_eq]
          intro hbd
          exact h.1 b hb ((by simpa using hx : x.date = d).trans hbd.symm))
      rw [List.countP_cons, h0, if_pos hx,
        List.find?_cons_of_pos (p := fun b : DailyStat => b.date == d) _ hx]
      simp
    · rw [List.countP_cons, if_neg hx,
        List.find?_cons_of_neg (p := fun b : DailyStat => b.date == d) _ hx,
        Nat.add_zero]
      exact countP_of_pairwise_dates d xs h.2

/-- Over pairwise-distinct dates, looking up the date of a member bucket finds
exactly that bucket. -/
theorem find?_date_of_mem :
    ∀ (l : List DailyStat), l.Pairwise (fun a b => a.date ≠ b.date) →
      ∀ b ∈ l, l.find? (fun t => t.date == b.date) = some b
  | [], _, b, hb => absurd hb (List.not_mem_nil b)
  | x :: xs, h, b, hb => by
    rw [List.pairwise_cons] at h
    rcases List.mem_cons.mp hb with rfl | hmem
    · exact List.find?_cons_of_pos (p := fun t : DailyStat => t.date == b.date) _
        (by simp)
    · have hx : ¬ (x.date == b.date) = true := by
        simp only [beq_iff_eq]
        exact fun hxd => h.1 b hmem hxd
      rw [List.find?_cons_of_neg (p := fun t : DailyStat => t.date == b.date) _ hx]
      exact find?_date_of_mem xs h.2 b hmem

/-- C1 (amended): whenever at most 1000 sessions fall in the 8-day window
`[today - 7, today]`, the weekly progress reports the window bounds, contains
no bucket for a date with zero sessions in the window, and gives every date
with at least one window session exactly one bucket, whose four aggregates are
the count, completed count and duration sums over exactly that date's window
sessions. -/
theorem weekly_progress_spec (today : Nat) (store : Store)
    (h : (windowSessions today store).length ≤ 1000) :
    (get_weekly_progress today store).week_start = today - 7 ∧
    (get_weekly_progress today store).week_end = today ∧
    (∀ d, (get_weekly_progress today store).daily_progress.countP
        (fun b => b.date == d)
      = if (windowSessions today store).filter (fun s => s.session_date == d) = []
        then 0 else 1) ∧
    (∀ b ∈ (get_weekly_progress today store).daily_progress,
      (windowSessions today store).filter (fun s => s.session_date == b.date) ≠ [] ∧
      b.total_sessions
        = ((windowSessions today store).filter
            (fun s => s.session_date == b.date)).length ∧
      b.completed_sessions
        = (((windowSessions today store).filter
            (fun s => s.session_date == b.date)).filter (fun s => s.completed)).length ∧
      b.total_sitting_time
        = (((windowSessions today store).filter
            (fun s => s.session_date == b.date)).map (fun s => s.sitting_duration)).sum ∧
      b.total_activity_time
        = (((windowSessions today store).filter
            (fun s => s.session_date == b.date)).map
              (fun s => s.activity_duration)).sum) := by
  have ht : (windowSessions today store).take 1000 = windowSessions today store :=
    List.take_of_length_le h
  have hdp : (get_weekly_progress today store).daily_progress
      = (windowSessions today store).foldl addToStats [] := by
    simp [get_weekly_progress, ht]
  have hpw : ((windowSessions today store).foldl addToStats []).Pairwise
      (fun a b => a.date ≠ b.date) :=
    foldl_addToStats_pairwise _ List.Pairwise.nil
  refine ⟨rfl, rfl, ?_, ?_⟩
  · intro d
    rw [hdp, countP_of_pairwise_dates d _ hpw,
      find?_foldl_addToStats_none _ d [] rfl]
    by_cases hfil : (windowSessions today store).filter
        (fun s => s.session_date == d) = []
    · simp [hfil]
    · simp [hfil]
  · intro b hb
    rw [hdp] at hb
    have hfind := find?_date_of_mem _ hpw b hb
    rw [find?_foldl_addToStats_none _ b.date [] rfl] at hfind
    by_cases hfil : (windowSessions today store).filter
        (fun s => s.session_date == b.date) = []
    · rw [if_pos hfil] at hfind
      cases hfind
    · rw [if_neg hfil] at hfind
      injection hfind with hfind
      have hfields := bumpAll_fields ((windowSessions today store).filter
        (fun s => s.session_date == b.date)) (initStat b.date)
      rw [hfind] at hfields
      refine ⟨hfil, ?_, ?_, ?_, ?_⟩
      · have := hfields.2.1
        simpa [initStat] using this
      · have := hfields.2.2.1
        simpa [initStat] using this
      · have := hfields.2.2.2.1
        simpa [initStat] using this
      · have := hfields.2.2.2.2
        simpa [initStat] using this

/-- Witness for C1 at a concrete store: day 5 has sessions in the window of
day 7, so it gets exactly one bucket. -/
theorem weekly_progress_spec_witness :
    (windowSessions 7 wStore).length ≤ 1000 ∧
    ((get_weekly_progress 7 wStore).daily_progress.countP (fun b => b.date == 5)
      = if (windowSessions 7 wStore).filter (fun s => s.session_date == 5) = []
        then 0 else 1) :=
  ⟨by decide, (weekly_progress_spec 7 wStore (by decide)).2.2.1 5⟩

/-- Folding `k` further copies of `sdemo` into its existing day-5 bucket adds
`k` to its session count and nothing else. -/
theorem foldl_addToStats_replicate (k : Nat) :
    ∀ m : Nat, List.foldl addToStats
      [{ date := 5, total_sessions := m, completed_sessions := 0
         total_sitting_time := 0, total_activity_time := 0 }]
      (List.replicate k sdemo)
      = [{ date := 5, total_sessions := m + k, completed_sessions := 0
           total_sitting_time := 0, total_activity_time := 0 }] := by
  induction k with
  | zero => intro m; rfl
  | succ k ih =>
    intro m
    rw [List.replicate_succ, List.foldl_cons]
    have hstep : addToStats
        [{ date := 5, total_sessions := m, completed_sessions := 0
           total_sitting_time := 0, total_activity_time := 0 }] sdemo
        = [{ date := 5, total_sessions := m + 1, completed_sessions := 0
             total_sitting_time := 0, total_activity_time := 0 }] := by
      simp [addToStats, sdemo, bumpStat]
    rw [hstep, ih (m + 1)]
    have harith : m + 1 + k = m + (k + 1) := by omega
    rw [harith]

/-- Unfolding lemma: the bucket list of the weekly progress is the grouping
fold over the capped window fetch. -/
theorem get_weekly_progress_daily (today : Nat) (store : Store) :
    (get_weekly_progress today store).daily_progress
      = ((windowSessions today store).take 1000).foldl addToStats [] := rfl

/-- Grouping `m` copies of `sdemo` yields one day-5 bucket counting `m`
sessions (no bucket at all when `m = 0`). -/
theorem foldl_addToStats_replicate_all (m : Nat) :
    List.foldl addToStats [] (List.replicate m sdemo)
      = if m = 0 then [] else
          [{ date := 5, total_sessions := m, completed_sessions := 0
             total_sitting_time := 0, total_activity_time := 0 }] := by
  cases m with
  | zero => rfl
  | succ m =>
    have hfirst : addToStats [] sdemo
        = [{ date := 5, total_sessions := 1, completed_sessions := 0
             total_sitting_time := 0, total_activity_time := 0 }] := by decide
    rw [List.replicate_succ, List.foldl_cons, hfirst,
      foldl_addToStats_replicate m 1, if_neg (Nat.succ_ne_zero m)]
    have harith : 1 + m = m + 1 := by omega
    rw [harith]

/-- Counterexample to C1 as stated: with 1001 window sessions all dated day 5,
the `to_list(1000)` cap makes the unique bucket count 1000 sessions while the
window holds 1001 sessions of that date, so the bucket sums are not the sums
over all window sessions of its date. -/
theorem weekly_cap_cex :
    (get_weekly_progress 5 ce1001Store).daily_progress
      = [{ date := 5, total_sessions := 1000, completed_sessions := 0
           total_sitting_time := 0, total_activity_time := 0 }] ∧
    ((windowSessions 5 ce1001Store).filter (fun s => s.session_date == 5)).length
      = 1001 ∧
    (1000 : Nat) ≠ 1001 := by
  have hwin : windowSessions 5 ce1001Store = List.replicate 1001 sdemo := by
    show List.filter (fun s => decide (5 - 7 ≤ s.session_date)
      && decide (s.session_date ≤ 5)) (List.replicate 1001 sdemo)
      = List.replicate 1001 sdemo
    rw [List.filter_replicate, if_pos (by decide)]
  have hmin : (1000 : Nat) ⊓ 1001 = 1000 := by decide
  have htake : (windowSessions 5 ce1001Store).take 1000
      = List.replicate 1000 sdemo := by
    rw [hwin, List.take_replicate, hmin]
  refine ⟨?_, ?_, by decide⟩
  · rw [get_weekly_progress_daily, htake, foldl_addToStats_replicate_all 1000,
      if_neg (by decide)]
  · rw [hwin, List.filter_replicate, if_pos (by decide), List.length_replicate]

/-- C4: for all non-negative durations (and the request body's `completed`
flag at its default `False`), `create_session` returns a session with
`completed = false`, `session_date` equal to today and the given durations
unchanged, and its only store effect is appending exactly that record to the
session collection. -/
theorem create_session_spec (sd ad : Int) (newId today now : Nat) (store : Store)
    (_hs : 0 ≤ sd) (_ha : 0 ≤ ad) :
    (create_session ⟨sd, ad, false⟩ newId today now store).1.completed = false ∧
    (create_session ⟨sd, ad, false⟩ newId today now store).1.session_date = today ∧
    (create_session ⟨sd, ad, false⟩ newId today now store).1.sitting_duration = sd ∧
    (create_session ⟨sd, ad, false⟩ newId today now store).1.activity_duration = ad ∧
    (create_session ⟨sd, ad, false⟩ newId today now store).2.health_sessions
      = store.health_sessions ++ [(create_session ⟨sd, ad, false⟩ newId today now store).1] ∧
    (create_session ⟨sd, ad, false⟩ newId today now store).2.user_settings
      = store.user_settings :=
  ⟨rfl, rfl, rfl, rfl, rfl, rfl⟩

/-- Witness for C4 at a concrete input. -/
theorem create_session_spec_witness :
    (0:Int) ≤ 30 ∧ (0:Int) ≤ 5 ∧
    (create_session ⟨30, 5, false⟩ 1 20000 100 emptyStore).1.completed = false :=
  ⟨by decide, by decide,
    (create_session_spec 30 5 1 20000 100 emptyStore (by decide) (by decide)).1⟩

/-- C6: when no settings record exists, `get_user_settings` builds the
all-defaults record (sitting 50, activity 10, notifications on, sound on,
goal 8), persists it by appending it to the settings collection, and returns
it; when a record exists, it returns that record and leaves the store
untouched. -/
theorem get_user_settings_spec (newId now : Nat) (store : Store) :
    (store.user_settings.find? (fun t => t.user_id == "default_user") = none →
      (get_user_settings newId now store).1.sitting_reminder_minutes = 50 ∧
      (get_user_settings newId now store).1.activity_break_minutes = 10 ∧
      (get_user_settings newId now store).1.notifications_enabled = true ∧
      (get_user_settings newId now store).1.sound_alerts_enabled = true ∧
      (get_user_settings newId now store).1.daily_goal_sessions = 8 ∧
      (get_user_settings newId now store).2.user_settings
        = store.user_settings ++ [(get_user_settings newId now store).1]) ∧
    (∀ s, store.user_settings.find? (fun t => t.user_id == "default_user") = some s →
      get_user_settings newId now store = (s, store)) := by
  constructor
  · intro h
    simp [get_user_settings, h, defaultUserSettings]
  · intro s h
    simp [get_user_settings, h]

/-- Witness for C6: first `get` on the empty store yields the defaults. -/
theorem get_user_settings_spec_witness :
    (get_user_settings 3 11 emptyStore).1.sitting_reminder_minutes = 50 ∧
    (get_user_settings 3 11 emptyStore).1.daily_goal_sessions = 8 :=
  ⟨((get_user_settings_spec 3 11 emptyStore).1 rfl).1,
   ((get_user_settings_spec 3 11 emptyStore).1 rfl).2.2.2.2.1⟩

/-- C10: the core validates nothing: `create_session` persists and returns any
integer durations (negative ones included) and any initial `completed` flag
verbatim; consequently the daily aggregates over such a session are negative,
and a session created with `completed = True` counts as completed in daily and
weekly aggregates although `complete_session` was never called. -/
theorem create_no_validation (sd ad : Int) (c : Bool) (newId today now : Nat)
    (store : Store) :
    ((create_session ⟨sd, ad, c⟩ newId today now store).1.sitting_duration = sd ∧
     (create_session ⟨sd, ad, c⟩ newId today now store).1.activity_duration = ad ∧
     (create_session ⟨sd, ad, c⟩ newId today now store).1.completed = c ∧
     (create_session ⟨sd, ad, c⟩ newId today now store).2.health_sessions
       = store.health_sessions ++ [(create_session ⟨sd, ad, c⟩ newId today now store).1]) ∧
    (get_daily_progress 3 negStore).total_sitting_time = -5 ∧
    (get_daily_progress 3 negStore).total_activity_time = -3 ∧
    (get_daily_progress 3 negStore).total_sitting_time < 0 ∧
    (get_daily_progress 3 negStore).completed_sessions = 1 ∧
    (get_weekly_progress 3 negStore).daily_progress
      = [{ date := 3, total_sessions := 1, completed_sessions := 1
           total_sitting_time := -5, total_activity_time := -3 }] :=
  ⟨⟨rfl, rfl, rfl, rfl⟩, by decide, by decide, by decide, by decide, by decide⟩

/-- C2 (amended): whenever at most 100 sessions are dated today, the daily
progress aggregates are the count, completed count and duration sums over
exactly today's sessions, together with that raw session list; with zero
sessions for today, all four aggregates are zero and the list is empty. -/
theorem daily_progress_spec (today : Nat) (store : Store)
    (h : (todaySessions today store).length ≤ 100) :
    (get_daily_progress today store).date = today ∧
    (get_daily_progress today store).total_sessions
      = (todaySessions today store).length ∧
    (get_daily_progress today store).completed_sessions
      = ((todaySessions today store).filter (fun s => s.completed)).length ∧
    (get_daily_progress today store).total_sitting_time
      = ((todaySessions today store).map (fun s => s.sitting_duration)).sum ∧
    (get_daily_progress today store).total_activity_time
      = ((todaySessions today store).map (fun s => s.activity_duration)).sum ∧
    (get_daily_progress today store).sessions = todaySessions today store ∧
    (todaySessions today store = [] →
      (get_daily_progress today store).total_sessions = 0 ∧
      (get_daily_progress today store).completed_sessions = 0 ∧
      (get_daily_progress today store).total_sitting_time = 0 ∧
      (get_daily_progress today store).total_activity_time = 0 ∧
      (get_daily_progress today store).sessions = []) := by
  have ht : (todaySessions today store).take 100 = todaySessions today store :=
    List.take_of_length_le h
  refine ⟨rfl, ?_, ?_, ?_, ?_, ?_, ?_⟩
  · simp [get_daily_progress, ht]
  · simp [get_daily_progress, ht]
  · simp [get_daily_progress, ht]
  · simp [get_daily_progress, ht]
  · simp [get_daily_progress, ht]
  · intro h0
    simp [get_daily_progress, h0]

/-- Witness for C2 at a concrete store with one session dated today. -/
theorem daily_progress_spec_witness :
    (todaySessions 5 sessionStoreEx).length ≤ 100 ∧
    (get_daily_progress 5 sessionStoreEx).total_sitting_time
      = ((todaySessions 5 sessionStoreEx).map (fun s => s.sitting_duration)).sum :=
  ⟨by decide, (daily_progress_spec 5 sessionStoreEx (by decide)).2.2.2.1⟩

/-- Counterexample to C2 as stated: with 101 sessions dated today the
`to_list(100)` cap makes `total_sessions` report 100, not the number of
sessions whose `session_date` is today (101). -/
theorem daily_progress_cap_cex :
    (get_daily_progress 5 ce101Store).total_sessions = 100 ∧
    (todaySessions 5 ce101Store).length = 101 ∧
    (get_daily_progress 5 ce101Store).total_sessions
      ≠ (todaySessions 5 ce101Store).length := by
  have hfil : todaySessions 5 ce101Store = List.replicate 101 sdemo := by
    simp [todaySessions, ce101Store, List.filter_replicate, sdemo]
  have htot : (get_daily_progress 5 ce101Store).total_sessions = 100 := by
    have hdef : (get_daily_progress 5 ce101Store).total_sessions
        = ((todaySessions 5 ce101Store).take 100).length := rfl
    rw [hdef, hfil, List.take_replicate, List.length_replicate]
    decide
  have hlen : (todaySessions 5 ce101Store).length = 101 := by
    rw [hfil, List.length_replicate]
  exact ⟨htot, hlen, by rw [htot, hlen]; decide⟩

/-- C5: updating the settings when a record exists rewrites exactly the
supplied fields, keeps every omitted field (and the id) at its prior value,
stamps `timestamp` with the current instant, and returns the resulting full
record; a subsequent `get` returns that same record and changes nothing. -/
theorem update_settings_spec (u : UserSettingsUpdate) (newId now : Nat)
    (store : Store) (s : UserSettings)
    (hf : store.user_settings.find? (fun t => t.user_id == "default_user") = some s) :
    (update_user_settings u newId now store).1 = applyUpdate u now s ∧
    (update_user_settings u newId now store).1.sitting_reminder_minutes
      = u.sitting_reminder_minutes.getD s.sitting_reminder_minutes ∧
    (update_user_settings u newId now store).1.activity_break_minutes
      = u.activity_break_minutes.getD s.activity_break_minutes ∧
    (update_user_settings u newId now store).1.notifications_enabled
      = u.notifications_enabled.getD s.notifications_enabled ∧
    (update_user_settings u newId now store).1.sound_alerts_enabled
      = u.sound_alerts_enabled.getD s.sound_alerts_enabled ∧
    (update_user_settings u newId now store).1.daily_goal_sessions
      = u.daily_goal_sessions.getD s.daily_goal_sessions ∧
    (update_user_settings u newId now store).1.timestamp = now ∧
    (update_user_settings u newId now store).1.id = s.id ∧
    (∀ nid2 now2, get_user_settings nid2 now2 (update_user_settings u newId now store).2
      = ((update_user_settings u newId now store).1,
         (update_user_settings u newId now store).2)) := by
  have hfind := replaceFirstBy_find? (p := fun t : UserSettings => t.user_id == "default_user")
    (f := applyUpdate u now) (fun t => rfl) hf
  have hr : update_user_settings u newId now store
      = (applyUpdate u now s,
         Store.mk store.health_sessions
           (replaceFirstBy (fun t => t.user_id == "default_user")
             (applyUpdate u now) store.user_settings)) := by
    simp [update_user_settings, hf, hfind]
  rw [hr]
  refine ⟨rfl, rfl, rfl, rfl, rfl, rfl, rfl, rfl, ?_⟩
  intro nid2 now2
  simp [get_user_settings, hfind]

/-- Witness for C5: patching only `sitting_reminder_minutes` to 60 on a store
with one settings record yields 60 there and the prior value elsewhere. -/
theorem update_settings_spec_witness :
    settingsStoreEx.user_settings.find? (fun t => t.user_id == "default_user")
      = some { id := 9, user_id := "default_user", sitting_reminder_minutes := 45
               activity_break_minutes := 12, notifications_enabled := false
               sound_alerts_enabled := true, daily_goal_sessions := 6, timestamp := 0 } ∧
    (update_user_settings ⟨some 60, none, none, none, none⟩ 2 7 settingsStoreEx).1.sitting_reminder_minutes
      = (some (60:Int)).getD 45 ∧
    (update_user_settings ⟨some 60, none, none, none, none⟩ 2 7 settingsStoreEx).1.activity_break_minutes
      = (none : Option Int).getD 12 :=
  ⟨by decide,
   (update_settings_spec ⟨some 60, none, none, none, none⟩ 2 7 settingsStoreEx
      { id := 9, user_id := "default_user", sitting_reminder_minutes := 45
        activity_break_minutes := 12, notifications_enabled := false
        sound_alerts_enabled := true, daily_goal_sessions := 6, timestamp := 0 }
      (by decide)).2.1,
   (update_settings_spec ⟨some 60, none, none, none, none⟩ 2 7 settingsStoreEx
      { id := 9, user_id := "default_user", sitting_reminder_minutes := 45
        activity_break_minutes := 12, notifications_enabled := false
        sound_alerts_enabled := true, daily_goal_sessions := 6, timestamp := 0 }
      (by decide)).2.2.1⟩

/-- C8: starting from a store with at most one `default_user` settings record,
both `get_user_settings` and `update_user_settings` leave at most one such
record: `get` inserts only when none exists, `update` inserts only when its
filter matched nothing and otherwise rewrites the matched record in place. -/
theorem settings_singleton_invariant (newId now : Nat) (u : UserSettingsUpdate)
    (store : Store) (h : settingsCount store ≤ 1) :
    settingsCount (get_user_settings newId now store).2 ≤ 1 ∧
    settingsCount (update_user_settings u newId now store).2 ≤ 1 := by
  constructor
  · cases hf : store.user_settings.find? (fun t => t.user_id == "default_user") with
    | some s =>
      simpa [get_user_settings, hf] using h
    | none =>
      have h0 : store.user_settings.countP (fun t => t.user_id == "default_user") = 0 :=
        List.countP_eq_zero.mpr (List.find?_eq_none.mp hf)
      simp [get_user_settings, hf, settingsCount, List.countP_append, h0,
        List.countP_cons, defaultUserSettings]
  · cases hf : store.user_settings.find? (fun t => t.user_id == "default_user") with
    | some s =>
      have hcnt := countP_replaceFirstBy
        (p := fun t : UserSettings => t.user_id == "default_user")
        (q := fun t : UserSettings => t.user_id == "default_user")
        (f := applyUpdate u now) (fun t => rfl) store.user_settings
      simpa [update_user_settings, hf, settingsCount, hcnt] using h
    | none =>
      have h0 : store.user_settings.countP (fun t => t.user_id == "default_user") = 0 :=
        List.countP_eq_zero.mpr (List.find?_eq_none.mp hf)
      simp [update_user_settings, hf, settingsCount, List.countP_append, h0,
        List.countP_cons, settingsFromUpdate]

/-- C3: under a monotone clock (every stored timestamp precedes the current
instant), `complete_session` responds 404 exactly when no session with the
requested id exists, a 404 leaves the store unchanged, and on an existing id
it returns, and persists, the matched record with `completed = true` and
`timestamp` rewritten to the current instant. -/
theorem complete_session_spec (sid now : Nat) (store : Store)
    (hfresh : ∀ s ∈ store.health_sessions, s.timestamp < now) :
    ((complete_session sid now store).1 = none ↔
      ∀ s ∈ store.health_sessions, s.id ≠ sid) ∧
    ((complete_session sid now store).1 = none →
      (complete_session sid now store).2 = store) ∧
    (∀ s, store.health_sessions.find? (fun t => t.id == sid) = some s →
      (complete_session sid now store).1
        = some { s with completed := true, timestamp := now } ∧
      { s with completed := true, timestamp := now }
        ∈ (complete_session sid now store).2.health_sessions ∧
      (complete_session sid now store).2.user_settings = store.user_settings) := by
  cases hf : store.health_sessions.find? (fun t => t.id == sid) with
  | none =>
    have hcc : complete_session sid now store = (none, store) := by
      simp [complete_session, hf]
    have hnone := List.find?_eq_none.mp hf
    refine ⟨?_, fun _ => by rw [hcc], ?_⟩
    · constructor
      · intro _ s hs
        simpa using hnone s hs
      · intro _
        rw [hcc]
    · intro s hs
      exact Option.noConfusion hs
  | some s0 =>
    have hs0mem := List.mem_of_find?_eq_some hf
    have hid := List.find?_some hf
    have hcond : (s0.completed && s0.timestamp == now) = false := by
      have hts : (s0.timestamp == now) = false := by
        simp [Nat.ne_of_lt (hfresh s0 hs0mem)]
      rw [hts]
      simp
    have hfind2 := replaceFirstBy_find? (p := fun t : HealthSession => t.id == sid)
      (f := fun t => { t with completed := true, timestamp := now }) (fun t => rfl) hf
    have hcc : complete_session sid now store
        = (some { s0 with completed := true, timestamp := now },
           Store.mk (replaceFirstBy (fun t => t.id == sid)
             (fun t => { t with completed := true, timestamp := now })
             store.health_sessions) store.user_settings) := by
      simp [complete_session, hf, hcond, hfind2]
    refine ⟨?_, ?_, ?_⟩
    · rw [hcc]
      constructor
      · intro h
        cases h
      · intro hall
        exact absurd (by simpa using hid) (hall s0 hs0mem)
    · rw [hcc]
      intro h
      cases h
    · intro s hs
      injection hs with hs
      subst hs
      exact ⟨by rw [hcc], by rw [hcc]; exact List.mem_of_find?_eq_some hfind2,
        by rw [hcc]⟩

/-- Witness for C3 at a concrete store: an unknown id yields the 404 branch
exactly when no stored session carries it. -/
theorem complete_session_spec_witness :
    (∀ s ∈ sessionStoreEx.health_sessions, s.timestamp < 5) ∧
    ((complete_session 99 5 sessionStoreEx).1 = none ↔
      ∀ s ∈ sessionStoreEx.health_sessions, s.id ≠ 99) :=
  ⟨by decide, (complete_session_spec 99 5 sessionStoreEx (by decide)).1⟩

/-- C7: completing an already-completed session again still succeeds (the
update matches a document, so no 404) and rewrites `timestamp` to the strictly
later second instant: completion is not idempotent with respect to
`timestamp`. -/
theorem complete_twice_spec (sid t1 t2 : Nat) (store : Store) (s : HealthSession)
    (hf : store.health_sessions.find? (fun t => t.id == sid) = some s)
    (h1 : s.timestamp < t1) (h2 : t1 < t2) :
    (complete_session sid t1 store).1
      = some { s with completed := true, timestamp := t1 } ∧
    (complete_session sid t2 (complete_session sid t1 store).2).1
      = some { s with completed := true, timestamp := t2 } ∧
    (complete_session sid t2 (complete_session sid t1 store).2).1
      ≠ (complete_session sid t1 store).1 := by
  have hcond1 : (s.completed && s.timestamp == t1) = false := by
    have hts : (s.timestamp == t1) = false := by
      simp [Nat.ne_of_lt h1]
    rw [hts]
    simp
  have hfind1 := replaceFirstBy_find? (p := fun t : HealthSession => t.id == sid)
    (f := fun t => { t with completed := true, timestamp := t1 }) (fun t => rfl) hf
  have hcc1 : complete_session sid t1 store
      = (some { s with completed := true, timestamp := t1 },
         Store.mk (replaceFirstBy (fun t => t.id == sid)
           (fun t => { t with completed := true, timestamp := t1 })
           store.health_sessions) store.user_settings) := by
    simp [complete_session, hf, hcond1, hfind1]
  have hcond2 : (({ s with completed := true, timestamp := t1 } : HealthSession).completed
      && ({ s with completed := true, timestamp := t1 } : HealthSession).timestamp == t2)
      = false := by
    have hts : (t1 == t2) = false := by
      simp [Nat.ne_of_lt h2]
    simpa using hts
  have hfind2 := replaceFirstBy_find? (p := fun t : HealthSession => t.id == sid)
    (f := fun t => { t with completed := true, timestamp := t2 }) (fun t => rfl) hfind1
  have hcc2 : (complete_session sid t2 (complete_session sid t1 store).2).1
      = some { s with completed := true, timestamp := t2 } := by
    rw [hcc1]
    simp [complete_session, hfind1, hcond2, hfind2]
  refine ⟨by rw [hcc1], hcc2, ?_⟩
  rw [hcc2, hcc1]
  intro h
  injection h with h
  have := congrArg HealthSession.timestamp h
  simp at this
  omega

/-- Witness for C7: completing the stored session at instant 3 and again at
instant 9 leaves it completed with the later timestamp. -/
theorem complete_twice_spec_witness :
    (complete_session 1 9 (complete_session 1 3 sessionStoreEx).2).1
      = some { id := 1, user_id := "default_user", session_date := 5
               sitting_duration := 30, activity_duration := 5
               completed := true, timestamp := 9 } :=
  (complete_twice_spec 1 3 9 sessionStoreEx
    { id := 1, user_id := "default_user", session_date := 5, sitting_duration := 30
      activity_duration := 5, completed := false, timestamp := 0 }
    (by decide) (by decide) (by decide)).2.1

/-- C9: a completed session never reverts and only `complete_session` mutates
stored sessions: `create_session` only appends (existing records untouched),
the settings operations never touch the session collection, and after a
complete call every stored session descends from a previously stored session
with id, user, date and durations unchanged and `completed` never lowered from
`true`. -/
theorem sessions_completed_monotone (inp : HealthSessionCreate)
    (newId today now sid nid2 now2 nid3 now3 : Nat) (u : UserSettingsUpdate)
    (store : Store) :
    (∀ s ∈ store.health_sessions,
       s ∈ (create_session inp newId today now store).2.health_sessions) ∧
    (get_user_settings nid2 now2 store).2.health_sessions = store.health_sessions ∧
    (update_user_settings u nid3 now3 store).2.health_sessions = store.health_sessions ∧
    (∀ s2 ∈ (complete_session sid now store).2.health_sessions,
       ∃ s1 ∈ store.health_sessions,
         s2.id = s1.id ∧ s2.user_id = s1.user_id ∧
         s2.session_date = s1.session_date ∧
         s2.sitting_duration = s1.sitting_duration ∧
         s2.activity_duration = s1.activity_duration ∧
         (s1.completed = true → s2.completed = true)) := by
  refine ⟨?_, ?_, ?_, ?_⟩
  · intro s hs
    simp [create_session]
    exact Or.inl hs
  · cases hf : store.user_settings.find? (fun t => t.user_id == "default_user") with
    | some s => simp [get_user_settings, hf]
    | none => simp [get_user_settings, hf]
  · cases hf : store.user_settings.find? (fun t => t.user_id == "default_user") with
    | some s => simp [update_user_settings, hf]
    | none => simp [update_user_settings, hf]
  · intro s2 hs2
    cases hf : store.health_sessions.find? (fun t => t.id == sid) with
    | none =>
      rw [show (complete_session sid now store).2 = store by
        simp [complete_session, hf]] at hs2
      exact ⟨s2, hs2, rfl, rfl, rfl, rfl, rfl, fun hc => hc⟩
    | some s0 =>
      have hpost : (complete_session sid now store).2.health_sessions
          = replaceFirstBy (fun t => t.id == sid)
              (fun t => { t with completed := true, timestamp := now })
              store.health_sessions := by
        by_cases hc : (s0.completed && s0.timestamp == now) = true
        · simp [complete_session, hf, hc]
        · simp [complete_session, hf, hc]
      rw [hpost] at hs2
      rcases mem_replaceFirstBy hs2 with h | ⟨y, hy, hxy⟩
      · exact ⟨s2, h, rfl, rfl, rfl, rfl, rfl, fun hc => hc⟩
      · subst hxy
        exact ⟨y, hy, rfl, rfl, rfl, rfl, rfl, fun _ => rfl⟩

/-- Witness for C9: a pre-existing session survives a create call. -/
theorem sessions_completed_monotone_witness :
    sdemo ∈ (create_session ⟨30, 5, false⟩ 9 5 4 ⟨[sdemo], []⟩).2.health_sessions :=
  (sessions_completed_monotone ⟨30, 5, false⟩ 9 5 4 2 3 6 3 6 emptyPatch
    ⟨[sdemo], []⟩).1 sdemo (by decide)

/-- Witness for C8 at a concrete store holding exactly one settings record. -/
theorem settings_singleton_invariant_witness :
    settingsCount settingsStoreEx ≤ 1 ∧
    settingsCount (update_user_settings emptyPatch 2 7 settingsStoreEx).2 ≤ 1 :=
  ⟨by decide, (settings_singleton_invariant 2 7 emptyPatch settingsStoreEx (by decide)).2⟩

end HealthReminder
